import Mathlib

/-!
Shallow embedding of the cinema booking backend (`src/server.js`).

The embedding models the relational store (tables `movies`, `sessions`,
`bookings`, `booking_seats` with the `UNIQUE(session_id, seat)` constraint),
the Zod `BookingSchema` validator, the `POST /book` handler with its
`transactionActive` rollback logic, and the `GET /sessions/:id/seats` read
path.  Infrastructure failures of individual database calls are modelled by
an oracle `fail : Nat → Bool` indexed by the position of the call inside the
handler (0 = BEGIN, 1 = booking INSERT, 2..n+1 = seat INSERTs, n+2 = COMMIT,
n+3 and n+4 = post-commit summary reads).  Faithful to `openDb`, no
`PRAGMA foreign_keys` is issued, so the declared foreign keys are not
enforced: inserting a booking never checks the `sessions` table.
-/

/-- Row of the `movies` table (columns used by the read paths). -/
structure MovieRow where
  id : Int
  title : String
  description : String
  duration : Int
  image : String
  deriving Repr, DecidableEq

/-- Row of the `sessions` table. -/
structure SessionRow where
  id : Int
  movie_id : Int
  audio : String
  subtitle : Option String
  hall_no : Int
  date : String
  time : String
  deriving Repr, DecidableEq

/-- Row of the `bookings` table. -/
structure BookingRow where
  id : Nat
  session_id : Int
  name : String
  email : String
  phone_number : String
  deriving Repr, DecidableEq

/-- Row of the `booking_seats` table. -/
structure SeatRow where
  id : Nat
  booking_id : Nat
  session_id : Int
  seat : String
  deriving Repr, DecidableEq

/-- The relational store.  `nextBookingId` and `nextSeatId` model the
AUTOINCREMENT counters of `bookings` and `booking_seats`. -/
structure DbState where
  movies : List MovieRow
  sessions : List SessionRow
  bookings : List BookingRow
  booking_seats : List SeatRow
  nextBookingId : Nat
  nextSeatId : Nat
  deriving Repr, DecidableEq

/-- An untyped `POST /book` request body: `none` models an absent field or a
field of the wrong JSON type, mirroring what Zod sees before parsing. -/
structure RawPayload where
  session_id : Option Int
  name : Option String
  email : Option String
  phone_number : Option String
  seats : Option (List String)
  deriving Repr, DecidableEq

/-- A validated booking request, as produced by `BookingSchema.parse`. -/
structure BookingRequest where
  session_id : Int
  name : String
  email : String
  phone_number : String
  seats : List String
  deriving Repr, DecidableEq

/-- One Zod validation issue: the offending field and its message. -/
structure Issue where
  path : String
  message : String
  deriving Repr, DecidableEq

/-- Split a character list at every occurrence of `c` (keeping empty
pieces), like `String.split` on a single separator character. -/
def splitOnChar (c : Char) : List Char → List (List Char)
  | [] => [[]]
  | x :: xs =>
      if x = c then [] :: splitOnChar c xs
      else
        match splitOnChar c xs with
        | [] => [[x]]
        | g :: gs => (x :: g) :: gs

/-- Model of the email check performed by `z.string().email()` of the
external `zod` dependency: one `@` separating a non-empty local part from a
domain made of at least two non-empty dot-separated labels. -/
def isValidEmail (s : String) : Bool :=
  match splitOnChar '@' s.toList with
  | [lp, dom] =>
      decide (1 ≤ lp.length) &&
      decide (2 ≤ (splitOnChar '.' dom).length) &&
      (splitOnChar '.' dom).all (fun part => decide (1 ≤ part.length))
  | _ => false

/-- Issues produced by `session_id: z.number().min(1)`. -/
def sessionIssues (o : Option Int) : List Issue :=
  match o with
  | none => [⟨"session_id", "Required"⟩]
  | some n => if 1 ≤ n then [] else [⟨"session_id", "Session ID is required"⟩]

/-- Issues produced by `name: z.string().min(1)`. -/
def nameIssues (o : Option String) : List Issue :=
  match o with
  | none => [⟨"name", "Required"⟩]
  | some s => if 1 ≤ s.length then [] else [⟨"name", "Name is required"⟩]

/-- Issues produced by `email: z.string().email()`. -/
def emailIssues (o : Option String) : List Issue :=
  match o with
  | none => [⟨"email", "Required"⟩]
  | some s => if isValidEmail s then [] else [⟨"email", "Invalid email address"⟩]

/-- Issues produced by `phone_number: z.string().length(8)`. -/
def phoneIssues (o : Option String) : List Issue :=
  match o with
  | none => [⟨"phone_number", "Required"⟩]
  | some s => if s.length = 8 then [] else [⟨"phone_number", "Invalid phone number"⟩]

/-- Issues produced by `seats: z.array(z.string().min(1)).min(1)`. -/
def seatIssues (o : Option (List String)) : List Issue :=
  match o with
  | none => [⟨"seats", "Required"⟩]
  | some l =>
      (if l.all (fun s => decide (1 ≤ s.length)) then [] else [⟨"seats", "Seat is required"⟩]) ++
      (if 1 ≤ l.length then [] else [⟨"seats", "At least one seat must be selected"⟩])

/-- All issues collected by `BookingSchema.parse`, in schema key order. -/
def bookingIssues (p : RawPayload) : List Issue :=
  sessionIssues p.session_id ++ nameIssues p.name ++ emailIssues p.email ++
    phoneIssues p.phone_number ++ seatIssues p.seats

/-- `BookingSchema.parse`: a well-typed request, or the list of all issues. -/
def validateBooking (p : RawPayload) : Except (List Issue) BookingRequest :=
  match p.session_id, p.name, p.email, p.phone_number, p.seats with
  | some sid, some nm, some em, some ph, some sts =>
      if bookingIssues p = [] then .ok ⟨sid, nm, em, ph, sts⟩
      else .error (bookingIssues p)
  | _, _, _, _, _ => .error (bookingIssues p)

/-- SQLite message accompanying a violation of `UNIQUE(session_id, seat)`. -/
def uniqueMsg : String :=
  "SQLITE_CONSTRAINT: UNIQUE constraint failed: booking_seats.session_id, booking_seats.seat"

/-- Message accompanying a modelled infrastructure failure of a db call. -/
def infraMsg : String := "SQLITE_ERROR: database operation failed"

/-- Message of the TypeError raised when the post-commit summary read of the
booking row returns `undefined`. -/
def undefinedReadMsg : String := "Cannot read properties of undefined"

/-- Errors a database call of the booking transaction can raise. -/
inductive DbErr where
  | uniqueViolation
  | infra
  deriving Repr, DecidableEq

/-- The `error.message` carried into `handleDbError`'s `details` field. -/
def DbErr.message : DbErr → String
  | .uniqueViolation => uniqueMsg
  | .infra => infraMsg

/-- `true` iff some `booking_seats` row already claims `(sid, s)`. -/
def seatTaken (st : DbState) (sid : Int) (s : String) : Bool :=
  st.booking_seats.any (fun r => r.session_id == sid && r.seat == s)

/-- The `(session_id, seat)` keys of a list of seat rows. -/
def seatKeys (l : List SeatRow) : List (Int × String) :=
  l.map (fun r => (r.session_id, r.seat))

/-- The seat-insert loop of `POST /book`: one
`INSERT INTO booking_seats (booking_id, session_id, seat)` per requested
seat, failing by oracle (infrastructure) or by the uniqueness constraint. -/
def insertSeats (fail : Nat → Bool) (k : Nat) (bookingId : Nat) (sid : Int) :
    List String → DbState → Except DbErr DbState
  | [], st => .ok st
  | s :: rest, st =>
      if fail k then .error .infra
      else if seatTaken st sid s then .error .uniqueViolation
      else insertSeats fail (k + 1) bookingId sid rest
        { st with
          booking_seats := st.booking_seats ++ [⟨st.nextSeatId, bookingId, sid, s⟩],
          nextSeatId := st.nextSeatId + 1 }

/-- A booking summary as returned in the success body of `POST /book`. -/
structure BookingSummary where
  booking_id : Nat
  name : String
  email : String
  phone_number : String
  session_id : Int
  seats : List String
  deriving Repr, DecidableEq

/-- The JSON body of a `POST /book` response. -/
inductive RespBody where
  | validationFailed (issues : List Issue)
  | dbError (errorMsg : String) (details : String)
  | bookSuccess (summary : BookingSummary)
  deriving Repr, DecidableEq

/-- An HTTP response of the `POST /book` handler. -/
structure HttpResponse where
  status : Nat
  body : RespBody
  deriving Repr, DecidableEq

/-- Observable transaction events of one `POST /book` execution:
whether `BEGIN TRANSACTION` ran, whether `COMMIT` succeeded, and whether
`ROLLBACK` was issued by the catch branch. -/
structure BookTrace where
  began : Bool
  committed : Bool
  rolledBack : Bool
  deriving Repr, DecidableEq

/-- `SELECT seat FROM booking_seats WHERE booking_id = ?`. -/
def seatsOfBooking (st : DbState) (bid : Nat) : List String :=
  (st.booking_seats.filter (fun r => r.booking_id == bid)).map (fun r => r.seat)

/-- `SELECT seat FROM booking_seats WHERE session_id = ?`. -/
def claimedSeats (st : DbState) (sid : Int) : List String :=
  (st.booking_seats.filter (fun r => r.session_id == sid)).map (fun r => r.seat)

/-- `SELECT * FROM sessions WHERE id = ?` (db.get: first match). -/
def findSession (st : DbState) (sid : Int) : Option SessionRow :=
  st.sessions.find? (fun r => r.id == sid)

/-- `SELECT * FROM movies WHERE id = ?` (db.get: first match). -/
def findMovie (st : DbState) (mid : Int) : Option MovieRow :=
  st.movies.find? (fun r => r.id == mid)

/-- The `POST /book` handler of `src/server.js`: validate, BEGIN, insert the
booking row, insert one seat-claim row per seat, COMMIT, re-read the booking
and its seats for the summary; on any error roll back iff
`transactionActive` and answer 400 for Zod errors, 500 otherwise.
Returns the resulting store, the HTTP response and the transaction trace. -/
def bookHandler (fail : Nat → Bool) (st : DbState) (p : RawPayload) :
    DbState × HttpResponse × BookTrace :=
  match validateBooking p with
  | .error issues => (st, ⟨400, .validationFailed issues⟩, ⟨false, false, false⟩)
  | .ok b =>
    if fail 0 then
      (st, ⟨500, .dbError "Failed to book seats" infraMsg⟩, ⟨false, false, false⟩)
    else if fail 1 then
      (st, ⟨500, .dbError "Failed to book seats" infraMsg⟩, ⟨true, false, true⟩)
    else
      match insertSeats fail 2 st.nextBookingId b.session_id b.seats
          { st with
            bookings := st.bookings ++
              [⟨st.nextBookingId, b.session_id, b.name, b.email, b.phone_number⟩],
            nextBookingId := st.nextBookingId + 1 } with
      | .error e => (st, ⟨500, .dbError "Failed to book seats" e.message⟩, ⟨true, false, true⟩)
      | .ok st2 =>
        if fail (2 + b.seats.length) then
          (st, ⟨500, .dbError "Failed to book seats" infraMsg⟩, ⟨true, false, true⟩)
        else if fail (3 + b.seats.length) || fail (4 + b.seats.length) then
          (st2, ⟨500, .dbError "Failed to book seats" infraMsg⟩, ⟨true, true, false⟩)
        else
          match st2.bookings.find? (fun r => r.id == st.nextBookingId) with
          | none =>
              (st2, ⟨500, .dbError "Failed to book seats" undefinedReadMsg⟩, ⟨true, true, false⟩)
          | some row =>
              (st2,
               ⟨200, .bookSuccess
                 ⟨row.id, row.name, row.email, row.phone_number, row.session_id,
                  seatsOfBooking st2 st.nextBookingId⟩⟩,
               ⟨true, true, false⟩)

/-- The oracle under which no database call fails for infrastructure
reasons; constraint violations still occur. -/
def noFail : Nat → Bool := fun _ => false

/-- Sequential composition of `POST /book` executions, each with its own
failure oracle; SQLite serializes writer transactions, so any interleaving
of booking calls is equivalent to such a serialization. -/
def runBooks (calls : List ((Nat → Bool) × RawPayload)) (st : DbState) : DbState :=
  calls.foldl (fun s c => (bookHandler c.1 s c.2).1) st

/-- Result of `GET /sessions/:id/seats`. -/
inductive SeatsResponse where
  | notFound (what : String)
  | ok (seats : List String) (session : SessionRow) (movie : MovieRow)
  deriving Repr, DecidableEq

/-- The `GET /sessions/:id/seats` handler: seat list of the session, then
404 checks for the session and its movie, else the combined payload. -/
def getSessionSeats (st : DbState) (sid : Int) : SeatsResponse :=
  match findSession st sid with
  | none => .notFound "Session not found"
  | some sess =>
    match findMovie st sess.movie_id with
    | none => .notFound "Movie not found"
    | some mov => .ok (claimedSeats st sid) sess mov

/-- The machine-readable part of a `POST /book` response: HTTP status plus
the `error` field of the body (the `details` field carries only the raw
`error.message` string). -/
def machineKind (r : HttpResponse) : Nat × String :=
  (r.status,
   match r.body with
   | .validationFailed _ => "Validation failed"
   | .dbError e _ => e
   | .bookSuccess _ => "success")

/-- The seat rows inserted for booking `bid` on session `sid`, with row ids
counting up from `nid`. -/
def mkSeatRows (nid : Nat) (bid : Nat) (sid : Int) : List String → List SeatRow
  | [] => []
  | s :: rest => ⟨nid, bid, sid, s⟩ :: mkSeatRows (nid + 1) bid sid rest

/-- `session_id` fails its schema check: absent/non-numeric or below 1. -/
def sessionBadB (o : Option Int) : Bool :=
  match o with
  | none => true
  | some n => decide (n < 1)

/-- `name` fails its schema check: absent or empty. -/
def nameBadB (o : Option String) : Bool :=
  match o with
  | none => true
  | some s => decide (s.length = 0)

/-- `email` fails its schema check: absent or not a valid email. -/
def emailBadB (o : Option String) : Bool :=
  match o with
  | none => true
  | some s => !isValidEmail s

/-- `phone_number` fails its schema check: absent or not exactly 8 chars. -/
def phoneBadB (o : Option String) : Bool :=
  match o with
  | none => true
  | some s => decide (s.length ≠ 8)

/-- `seats` fails its schema check: absent, containing an empty seat label,
or empty. -/
def seatsBadB (o : Option (List String)) : Bool :=
  match o with
  | none => true
  | some l => (!l.all (fun s => decide (1 ≤ s.length))) || decide (l.length = 0)

/-- The success body of `POST /book` reports exactly a persisted booking row
and the persisted seat claims of that booking. -/
def summaryMatchesStore (st : DbState) (resp : HttpResponse) : Prop :=
  ∃ row ∈ st.bookings,
    resp = ⟨200, .bookSuccess
      ⟨row.id, row.name, row.email, row.phone_number, row.session_id,
       seatsOfBooking st row.id⟩⟩

/-- An empty database, as created by `initializeDb`. -/
def emptySt : DbState := ⟨[], [], [], [], 1, 1⟩

/-- A sample movie row. -/
def sampleMovie : MovieRow := ⟨1, "Dune", "A movie", 120, "uploads/dune.png"⟩

/-- A sample session row for `sampleMovie`. -/
def sampleSession : SessionRow := ⟨1, 1, "EN", none, 1, "2026-01-01", "20:00"⟩

/-- A store holding one movie and one session and no bookings. -/
def baseSt : DbState := ⟨[sampleMovie], [sampleSession], [], [], 1, 1⟩

/-- A valid booking payload for session 1, seats A1 and A2. -/
def pAnn : RawPayload :=
  ⟨some 1, some "Ann", some "ann@mail.com", some "12345678", some ["A1", "A2"]⟩

/-- A valid booking payload for session 1, seats A2 and A3 (overlapping
`pAnn` on A2). -/
def pBob : RawPayload :=
  ⟨some 1, some "Bob", some "bob@mail.com", some "87654321", some ["A2", "A3"]⟩

/-- A store in which seat A1 of session 1 is already claimed. -/
def takenSt : DbState :=
  ⟨[sampleMovie], [sampleSession],
   [⟨1, 1, "Eve", "eve@mail.com", "11112222"⟩],
   [⟨1, 1, 1, "A1"⟩], 2, 2⟩

lemma seatTaken_iff_mem (st : DbState) (sid : Int) (s : String) :
    seatTaken st sid s = true ↔ (sid, s) ∈ seatKeys st.booking_seats := by
  simp only [seatTaken, seatKeys, List.any_eq_true, List.mem_map, Bool.and_eq_true, beq_iff_eq]
  constructor
  · rintro ⟨r, hr, h1, h2⟩
    exact ⟨r, hr, by simp [h1, h2]⟩
  · rintro ⟨r, hr, h⟩
    obtain ⟨h1, h2⟩ := Prod.mk.injEq _ _ _ _ ▸ h
    exact ⟨r, hr, h1, h2⟩

lemma seatTaken_false_iff (st : DbState) (sid : Int) (s : String) :
    seatTaken st sid s = false ↔ (sid, s) ∉ seatKeys st.booking_seats := by
  rw [← seatTaken_iff_mem]
  cases h : seatTaken st sid s <;> simp

lemma seatKeys_append (l₁ l₂ : List SeatRow) :
    seatKeys (l₁ ++ l₂) = seatKeys l₁ ++ seatKeys l₂ :=
  List.map_append _ _ _

lemma seatTaken_update_append (st : DbState) (sid : Int) (s : String) (rows : List SeatRow) :
    seatTaken { st with booking_seats := st.booking_seats ++ rows,
                        nextSeatId := st.nextSeatId + 1 } sid s =
      (seatTaken st sid s || rows.any (fun r => r.session_id == sid && r.seat == s)) := by
  simp [seatTaken, List.any_append]

lemma insertSeats_ok_of_fresh (seats : List String) :
    ∀ (st : DbState) (k bid : Nat) (sid : Int), seats.Nodup →
      (∀ s ∈ seats, seatTaken st sid s = false) →
      insertSeats noFail k bid sid seats st =
        .ok { st with
              booking_seats := st.booking_seats ++ mkSeatRows st.nextSeatId bid sid seats,
              nextSeatId := st.nextSeatId + seats.length } := by
  induction seats with
  | nil => intro st k bid sid _ _; simp [insertSeats, mkSeatRows]
  | cons s rest ih =>
    intro st k bid sid hnd hdis
    have hs : seatTaken st sid s = false := hdis s (by simp)
    rw [List.nodup_cons] at hnd
    rw [insertSeats]
    simp only [noFail, Bool.false_eq_true, if_false, hs]
    rw [ih _ (k + 1) bid sid hnd.2 ?hrest]
    case hrest =>
      intro s' hs'
      rw [seatTaken_update_append]
      have hne : (s == s') = false := by
        simp only [beq_eq_false_iff_ne, ne_eq]
        intro h; exact hnd.1 (h ▸ hs')
      simp [hdis s' (List.mem_cons_of_mem _ hs'), hne]
    simp [mkSeatRows, List.append_assoc]
    omega

lemma insertSeats_error_of_taken (seats : List String) :
    ∀ (st : DbState) (k bid : Nat) (sid : Int),
      (∃ s ∈ seats, seatTaken st sid s = true) →
      insertSeats noFail k bid sid seats st = .error .uniqueViolation := by
  induction seats with
  | nil => intro st k bid sid h; simp at h
  | cons s rest ih =>
    intro st k bid sid h
    obtain ⟨s0, hs0, htk⟩ := h
    rw [insertSeats]
    by_cases hst : seatTaken st sid s = true
    · simp [noFail, hst]
    · simp only [noFail, Bool.false_eq_true, if_false, Bool.not_eq_true] at hst ⊢
      rw [hst]
      simp only [Bool.false_eq_true, if_false]
      apply ih
      rcases List.mem_cons.1 hs0 with h0 | h0
      · exact absurd (h0 ▸ htk) (by simp [hst])
      · refine ⟨s0, h0, ?_⟩
        rw [seatTaken_update_append]
        simp [htk]

lemma insertSeats_error_of_dup (seats : List String) :
    ∀ (st : DbState) (k bid : Nat) (sid : Int), ¬ seats.Nodup →
      insertSeats noFail k bid sid seats st = .error .uniqueViolation := by
  induction seats with
  | nil => intro st k bid sid h; exact absurd List.nodup_nil h
  | cons s rest ih =>
    intro st k bid sid h
    rw [List.nodup_cons] at h
    push_neg at h
    by_cases hst : seatTaken st sid s = true
    · rw [insertSeats]; simp [noFail, hst]
    · simp only [Bool.not_eq_true] at hst
      rw [insertSeats]
      simp only [noFail, Bool.false_eq_true, if_false, hst]
      by_cases hmem : s ∈ rest
      · apply insertSeats_error_of_taken
        refine ⟨s, hmem, ?_⟩
        rw [seatTaken_update_append]
        simp
      · exact ih _ _ _ _ (h hmem)

lemma insertSeats_ok_nodupKeys (seats : List String) :
    ∀ (fail : Nat → Bool) (st st' : DbState) (k bid : Nat) (sid : Int),
      insertSeats fail k bid sid seats st = .ok st' →
      (seatKeys st.booking_seats).Nodup → (seatKeys st'.booking_seats).Nodup := by
  induction seats with
  | nil =>
    intro fail st st' k bid sid h hnd
    rw [insertSeats] at h
    cases h; exact hnd
  | cons s rest ih =>
    intro fail st st' k bid sid h hnd
    rw [insertSeats] at h
    by_cases hf : fail k = true
    · simp [hf] at h
    · simp only [hf, Bool.false_eq_true, if_false] at h
      by_cases hst : seatTaken st sid s = true
      · simp [hst] at h
      · simp only [Bool.not_eq_true] at hst
        simp only [hst, Bool.false_eq_true, if_false] at h
        refine ih _ _ _ _ _ _ h ?_
        simp only [DbState.booking_seats] at *
        rw [seatKeys_append]
        refine List.Nodup.append hnd (by simp [seatKeys]) ?_
        intro a ha hamem
        simp only [seatKeys, List.map_cons, List.map_nil, List.mem_singleton] at hamem
        subst hamem
        exact (seatTaken_false_iff st sid s).1 hst ha

lemma insertSeats_ok_frame (seats : List String) :
    ∀ (fail : Nat → Bool) (st st' : DbState) (k bid : Nat) (sid : Int),
      insertSeats fail k bid sid seats st = .ok st' →
      st'.bookings = st.bookings ∧ st'.sessions = st.sessions ∧
        st'.movies = st.movies ∧ st'.nextBookingId = st.nextBookingId := by
  induction seats with
  | nil =>
    intro fail st st' k bid sid h
    rw [insertSeats] at h
    cases h; exact ⟨rfl, rfl, rfl, rfl⟩
  | cons s rest ih =>
    intro fail st st' k bid sid h
    rw [insertSeats] at h
    by_cases hf : fail k = true
    · simp [hf] at h
    · simp only [hf, Bool.false_eq_true, if_false] at h
      by_cases hst : seatTaken st sid s = true
      · simp [hst] at h
      · simp only [Bool.not_eq_true] at hst
        simp only [hst, Bool.false_eq_true, if_false] at h
        obtain ⟨h1, h2, h3, h4⟩ :=
          ih fail
            { st with
              booking_seats := st.booking_seats ++ [⟨st.nextSeatId, bid, sid, s⟩],
              nextSeatId := st.nextSeatId + 1 }
            st' (k + 1) bid sid h
        exact ⟨h1, h2, h3, h4⟩

lemma mkSeatRows_filter_sid (seats : List String) :
    ∀ (nid bid : Nat) (sid : Int),
      ((mkSeatRows nid bid sid seats).filter
          (fun r => r.session_id == sid)).map (fun r => r.seat) = seats := by
  induction seats with
  | nil => intro nid bid sid; simp [mkSeatRows]
  | cons s rest ih => intro nid bid sid; simp [mkSeatRows, List.filter_cons, ih]

lemma seatKeys_mkSeatRows (seats : List String) :
    ∀ (nid bid : Nat) (sid : Int),
      seatKeys (mkSeatRows nid bid sid seats) = seats.map (fun s => (sid, s)) := by
  induction seats with
  | nil => intro nid bid sid; simp [mkSeatRows, seatKeys]
  | cons s rest ih => intro nid bid sid; simp [mkSeatRows, seatKeys] at ih ⊢; exact ih _ _ _

lemma sessionIssues_path (o : Option Int) (f : String) :
    (∃ i ∈ sessionIssues o, i.path = f) ↔ (sessionBadB o = true ∧ f = "session_id") := by
  cases o with
  | none => simp [sessionIssues, sessionBadB, eq_comm]
  | some n =>
    by_cases h : 1 ≤ n <;>
      simp [sessionIssues, sessionBadB, h, eq_comm] <;> omega

lemma nameIssues_path (o : Option String) (f : String) :
    (∃ i ∈ nameIssues o, i.path = f) ↔ (nameBadB o = true ∧ f = "name") := by
  cases o with
  | none => simp [nameIssues, nameBadB, eq_comm]
  | some s =>
    by_cases h : 1 ≤ s.length <;>
      simp [nameIssues, nameBadB, h, eq_comm] <;> omega

lemma emailIssues_path (o : Option String) (f : String) :
    (∃ i ∈ emailIssues o, i.path = f) ↔ (emailBadB o = true ∧ f = "email") := by
  cases o with
  | none => simp [emailIssues, emailBadB, eq_comm]
  | some s =>
    by_cases h : isValidEmail s <;>
      simp [emailIssues, emailBadB, h, eq_comm]

lemma phoneIssues_path (o : Option String) (f : String) :
    (∃ i ∈ phoneIssues o, i.path = f) ↔ (phoneBadB o = true ∧ f = "phone_number") := by
  cases o with
  | none => simp [phoneIssues, phoneBadB, eq_comm]
  | some s =>
    by_cases h : s.length = 8 <;>
      simp [phoneIssues, phoneBadB, h, eq_comm]

lemma seatIssues_path (o : Option (List String)) (f : String) :
    (∃ i ∈ seatIssues o, i.path = f) ↔ (seatsBadB o = true ∧ f = "seats") := by
  cases o with
  | none => simp [seatIssues, seatsBadB, eq_comm]
  | some l =>
    by_cases h1 : l.all (fun s => decide (1 ≤ s.length)) <;>
      by_cases h2 : 1 ≤ l.length
    · have h2' : l.length ≠ 0 := by omega
      simp [seatIssues, seatsBadB, h1, h2, h2', eq_comm]
    · have h2' : l.length = 0 := by omega
      simp [seatIssues, seatsBadB, h1, h2, h2', eq_comm]
    · have h2' : l.length ≠ 0 := by omega
      simp [seatIssues, seatsBadB, h1, h2, h2', eq_comm]
    · have h2' : l.length = 0 := by omega
      simp [seatIssues, seatsBadB, h1, h2, h2', eq_comm]

lemma paths_mem_append (l₁ l₂ : List Issue) (f : String) :
    (∃ i ∈ l₁ ++ l₂, i.path = f) ↔
      ((∃ i ∈ l₁, i.path = f) ∨ (∃ i ∈ l₂, i.path = f)) := by
  constructor
  · rintro ⟨i, hmem, hp⟩
    rcases List.mem_append.1 hmem with h | h
    · exact Or.inl ⟨i, h, hp⟩
    · exact Or.inr ⟨i, h, hp⟩
  · rintro (⟨i, h, hp⟩ | ⟨i, h, hp⟩)
    · exact ⟨i, List.mem_append_left _ h, hp⟩
    · exact ⟨i, List.mem_append_right _ h, hp⟩

lemma bookingIssues_path_iff (p : RawPayload) (f : String) :
    (∃ i ∈ bookingIssues p, i.path = f) ↔
      ((sessionBadB p.session_id = true ∧ f = "session_id") ∨
       (nameBadB p.name = true ∧ f = "name") ∨
       (emailBadB p.email = true ∧ f = "email") ∨
       (phoneBadB p.phone_number = true ∧ f = "phone_number") ∨
       (seatsBadB p.seats = true ∧ f = "seats")) := by
  unfold bookingIssues
  rw [paths_mem_append, paths_mem_append, paths_mem_append, paths_mem_append,
    sessionIssues_path, nameIssues_path, emailIssues_path, phoneIssues_path,
    seatIssues_path]
  tauto

lemma sessionIssues_eq_nil (o : Option Int) :
    sessionIssues o = [] ↔ sessionBadB o = false := by
  cases o with
  | none => simp [sessionIssues, sessionBadB]
  | some n => by_cases h : 1 ≤ n <;> simp [sessionIssues, sessionBadB, h] <;> omega

lemma nameIssues_eq_nil (o : Option String) :
    nameIssues o = [] ↔ nameBadB o = false := by
  cases o with
  | none => simp [nameIssues, nameBadB]
  | some s => by_cases h : 1 ≤ s.length <;> simp [nameIssues, nameBadB, h] <;> omega

lemma emailIssues_eq_nil (o : Option String) :
    emailIssues o = [] ↔ emailBadB o = false := by
  cases o with
  | none => simp [emailIssues, emailBadB]
  | some s => by_cases h : isValidEmail s <;> simp [emailIssues, emailBadB, h]

lemma phoneIssues_eq_nil (o : Option String) :
    phoneIssues o = [] ↔ phoneBadB o = false := by
  cases o with
  | none => simp [phoneIssues, phoneBadB]
  | some s => by_cases h : s.length = 8 <;> simp [phoneIssues, phoneBadB, h]

lemma seatIssues_eq_nil (o : Option (List String)) :
    seatIssues o = [] ↔ seatsBadB o = false := by
  cases o with
  | none => simp [seatIssues, seatsBadB]
  | some l =>
    by_cases h1 : l.all (fun s => decide (1 ≤ s.length)) <;>
      by_cases h2 : 1 ≤ l.length
    · have h2' : l.length ≠ 0 := by omega
      simp [seatIssues, seatsBadB, h1, h2, h2']
    · have h2' : l.length = 0 := by omega
      simp [seatIssues, seatsBadB, h1, h2, h2']
    · have h2' : l.length ≠ 0 := by omega
      simp [seatIssues, seatsBadB, h1, h2, h2']
    · have h2' : l.length = 0 := by omega
      simp [seatIssues, seatsBadB, h1, h2, h2']

lemma bookingIssues_eq_nil (p : RawPayload) :
    bookingIssues p = [] ↔
      (sessionBadB p.session_id || nameBadB p.name || emailBadB p.email ||
        phoneBadB p.phone_number || seatsBadB p.seats) = false := by
  simp [bookingIssues, List.append_eq_nil, sessionIssues_eq_nil, nameIssues_eq_nil,
    emailIssues_eq_nil, phoneIssues_eq_nil, seatIssues_eq_nil]
  tauto

lemma validateBooking_ok_of_nil (sid : Int) (nm em ph : String) (sts : List String)
    (h : bookingIssues ⟨some sid, some nm, some em, some ph, some sts⟩ = []) :
    validateBooking ⟨some sid, some nm, some em, some ph, some sts⟩ =
      .ok ⟨sid, nm, em, ph, sts⟩ := by
  unfold validateBooking
  simp [h]

lemma validateBooking_error_of_ne_nil (p : RawPayload) (h : bookingIssues p ≠ []) :
    validateBooking p = .error (bookingIssues p) := by
  unfold validateBooking
  split
  · next sid nm em ph sts h1 h2 h3 h4 h5 => simp [h]
  · rfl

lemma validateBooking_error_elim (p : RawPayload) (iss : List Issue)
    (h : validateBooking p = .error iss) :
    iss = bookingIssues p ∧ bookingIssues p ≠ [] := by
  by_cases hnil : bookingIssues p = []
  · exfalso
    have hb := (bookingIssues_eq_nil p).1 hnil
    simp only [Bool.or_eq_false_iff] at hb
    obtain ⟨⟨⟨⟨hs, hn⟩, he⟩, hp⟩, hst⟩ := hb
    have h1 : p.session_id ≠ none := by
      intro hx; rw [hx] at hs; simp [sessionBadB] at hs
    have h2 : p.name ≠ none := by
      intro hx; rw [hx] at hn; simp [nameBadB] at hn
    have h3 : p.email ≠ none := by
      intro hx; rw [hx] at he; simp [emailBadB] at he
    have h4 : p.phone_number ≠ none := by
      intro hx; rw [hx] at hp; simp [phoneBadB] at hp
    have h5 : p.seats ≠ none := by
      intro hx; rw [hx] at hst; simp [seatsBadB] at hst
    obtain ⟨o1, o2, o3, o4, o5⟩ := p
    obtain ⟨sid, rfl⟩ := Option.ne_none_iff_exists'.1 h1
    obtain ⟨nm, rfl⟩ := Option.ne_none_iff_exists'.1 h2
    obtain ⟨em, rfl⟩ := Option.ne_none_iff_exists'.1 h3
    obtain ⟨ph, rfl⟩ := Option.ne_none_iff_exists'.1 h4
    obtain ⟨sts, rfl⟩ := Option.ne_none_iff_exists'.1 h5
    rw [validateBooking_ok_of_nil sid nm em ph sts hnil] at h
    cases h
  · constructor
    · rw [validateBooking_error_of_ne_nil p hnil] at h
      cases h
      rfl
    · exact hnil

lemma bookHandler_success (st : DbState) (p : RawPayload) (r : BookingRequest)
    (hv : validateBooking p = .ok r) (hnd : r.seats.Nodup)
    (hdis : ∀ s ∈ r.seats, seatTaken st r.session_id s = false) :
    ∃ summ : BookingSummary,
      bookHandler noFail st p =
        ({ st with
           bookings := st.bookings ++
             [⟨st.nextBookingId, r.session_id, r.name, r.email, r.phone_number⟩],
           booking_seats := st.booking_seats ++
             mkSeatRows st.nextSeatId st.nextBookingId r.session_id r.seats,
           nextBookingId := st.nextBookingId + 1,
           nextSeatId := st.nextSeatId + r.seats.length },
         ⟨200, .bookSuccess summ⟩, ⟨true, true, false⟩) := by
  have hins :=
    insertSeats_ok_of_fresh r.seats
      { st with
        bookings := st.bookings ++
          [⟨st.nextBookingId, r.session_id, r.name, r.email, r.phone_number⟩],
        nextBookingId := st.nextBookingId + 1 }
      2 st.nextBookingId r.session_id hnd hdis
  unfold bookHandler
  rw [hv]
  simp only [noFail, Bool.false_eq_true, if_false, Bool.or_false]
  rw [hins]
  dsimp only
  cases hf : List.find? (fun row => row.id == st.nextBookingId)
      (st.bookings ++ [⟨st.nextBookingId, r.session_id, r.name, r.email, r.phone_number⟩]) with
  | none =>
    rw [List.find?_eq_none] at hf
    have hcontra := hf ⟨st.nextBookingId, r.session_id, r.name, r.email, r.phone_number⟩
      (List.mem_append_right _ (List.mem_singleton_self _))
    simp at hcontra
  | some row =>
    exact ⟨_, rfl⟩

lemma bookHandler_preserves_nodupKeys (fail : Nat → Bool) (st : DbState) (p : RawPayload)
    (h : (seatKeys st.booking_seats).Nodup) :
    (seatKeys ((bookHandler fail st p).1).booking_seats).Nodup := by
  unfold bookHandler
  repeat' split
  all_goals first
    | exact h
    | (apply insertSeats_ok_nodupKeys <;> first | assumption | exact h)

lemma bookHandler_conflict (st : DbState) (p : RawPayload) (r : BookingRequest)
    (hv : validateBooking p = .ok r)
    (hex : ∃ s ∈ r.seats, seatTaken st r.session_id s = true) :
    bookHandler noFail st p =
      (st, ⟨500, .dbError "Failed to book seats" uniqueMsg⟩, ⟨true, false, true⟩) := by
  have hx : ∃ s ∈ r.seats,
      seatTaken
        { st with
          bookings := st.bookings ++
            [⟨st.nextBookingId, r.session_id, r.name, r.email, r.phone_number⟩],
          nextBookingId := st.nextBookingId + 1 } r.session_id s = true := by
    obtain ⟨s, hs, ht⟩ := hex
    exact ⟨s, hs, ht⟩
  unfold bookHandler
  rw [hv]
  simp only [noFail, Bool.false_eq_true, if_false]
  rw [insertSeats_error_of_taken r.seats _ 2 st.nextBookingId r.session_id hx]
  rfl

/-- C2: whenever a `POST /book` execution opened the transaction
(`transactionActive` was set) but did not reach a successful COMMIT —
any insert or the COMMIT itself failed, for any reason — the handler issues
a ROLLBACK before responding and the store is left exactly as it was: no
Booking row and no SeatClaim row of the request survives, so no orphan
booking and no orphan seat claim can exist. -/
theorem book_rollback_on_failure (fail : Nat → Bool) (st : DbState) (p : RawPayload)
    (st' : DbState) (resp : HttpResponse) (tr : BookTrace)
    (h : bookHandler fail st p = (st', resp, tr))
    (hb : tr.began = true) (hc : tr.committed = false) :
    tr.rolledBack = true ∧ st' = st := by
  unfold bookHandler at h
  repeat' split at h
  all_goals rw [Prod.mk.injEq, Prod.mk.injEq] at h
  all_goals obtain ⟨rfl, rfl, rfl⟩ := h
  all_goals simp_all

/-- C2 witness: a seat insert that fails for infrastructure reasons leaves
the store untouched and the rollback flag set. -/
theorem book_rollback_on_failure_witness :
    (bookHandler (fun k => k == 2) emptySt pAnn).2.2.rolledBack = true ∧
    (bookHandler (fun k => k == 2) emptySt pAnn).1 = emptySt :=
  book_rollback_on_failure (fun k => k == 2) emptySt pAnn _ _ _ rfl rfl rfl

/-- C3: contrary to the claim, a validated booking whose `session_id`
references no row of the `sessions` table does NOT fail: `openDb` never
issues `PRAGMA foreign_keys = ON`, so SQLite leaves the declared foreign
keys unenforced and the booking and seat rows are inserted and committed
with HTTP 200 — here session 42 does not exist, yet the booking persists.
The schema's own `FOREIGN KEY (session_id) REFERENCES sessions(id)`
declaration documents the intended behaviour the claim describes. -/
theorem unknown_session_booking_persists :
    findSession emptySt 42 = none ∧
    bookHandler noFail emptySt
        ⟨some 42, some "Ann", some "ann@mail.com", some "12345678", some ["A1"]⟩ =
      ((⟨[], [], [⟨1, 42, "Ann", "ann@mail.com", "12345678"⟩],
         [⟨1, 1, 42, "A1"⟩], 2, 2⟩ : DbState),
       ⟨200, .bookSuccess ⟨1, "Ann", "ann@mail.com", "12345678", 42, ["A1"]⟩⟩,
       ⟨true, true, false⟩) :=
  ⟨rfl, rfl⟩

/-- C5: a booking payload with an empty `seats` list is rejected by the
Zod validator (`seats: ...min(1)`, issue "At least one seat must be
selected"), the handler answers HTTP 400 without ever executing
`BEGIN TRANSACTION` (`began = false`), and the store is unchanged. -/
theorem empty_seats_rejected (fail : Nat → Bool) (st : DbState) (p : RawPayload)
    (h : p.seats = some []) :
    bookHandler fail st p =
      (st, ⟨400, .validationFailed (bookingIssues p)⟩, ⟨false, false, false⟩) ∧
    ⟨"seats", "At least one seat must be selected"⟩ ∈ bookingIssues p := by
  have hmem : (⟨"seats", "At least one seat must be selected"⟩ : Issue) ∈ bookingIssues p := by
    unfold bookingIssues
    refine List.mem_append_right _ ?_
    rw [h]
    simp [seatIssues]
  have hne : bookingIssues p ≠ [] := by
    intro hnil
    rw [hnil] at hmem
    exact List.not_mem_nil _ hmem
  have herr := validateBooking_error_of_ne_nil p hne
  refine ⟨?_, hmem⟩
  unfold bookHandler
  rw [herr]

/-- C5 witness: the concrete empty-seats payload is rejected without a
transaction. -/
theorem empty_seats_rejected_witness :
    bookHandler noFail emptySt
        ⟨some 1, some "Ann", some "ann@mail.com", some "12345678", some []⟩ =
      (emptySt,
       ⟨400, .validationFailed (bookingIssues
         ⟨some 1, some "Ann", some "ann@mail.com", some "12345678", some []⟩)⟩,
       ⟨false, false, false⟩) :=
  (empty_seats_rejected noFail emptySt
    ⟨some 1, some "Ann", some "ann@mail.com", some "12345678", some []⟩ rfl).1

/-- C7 counterexample: the claim requires seat-conflict and infrastructure
failures to carry distinct machine-readable kinds, but the handler funnels
both through `handleDbError`: a conflicting request (seat A1 of session 1
already claimed in `takenSt`) and an infrastructure failure of the booking
INSERT produce responses with the identical machine-readable part
(status 500, error "Failed to book seats"); only the free-text `details`
message differs. -/
theorem conflict_vs_infra_same_kind :
    bookHandler noFail takenSt pAnn =
      (takenSt, ⟨500, .dbError "Failed to book seats" uniqueMsg⟩, ⟨true, false, true⟩) ∧
    bookHandler (fun k => k == 1) emptySt pAnn =
      (emptySt, ⟨500, .dbError "Failed to book seats" infraMsg⟩, ⟨true, false, true⟩) ∧
    machineKind (bookHandler noFail takenSt pAnn).2.1 =
      machineKind (bookHandler (fun k => k == 1) emptySt pAnn).2.1 ∧
    uniqueMsg ≠ infraMsg :=
  ⟨rfl, rfl, rfl, by decide⟩

/-- C7 amended: the handler distinguishes only validation failures
(HTTP 400, error "Validation failed" with the issue list) from every other
failure, which is reported as HTTP 500 with error "Failed to book seats";
seat-conflict and infrastructure failures share that machine-readable kind
and differ only in the `details` message string. -/
theorem failure_kind_taxonomy (fail : Nat → Bool) (st : DbState) (p : RawPayload)
    (st' : DbState) (resp : HttpResponse) (tr : BookTrace)
    (h : bookHandler fail st p = (st', resp, tr))
    (hne : resp.status ≠ 200) :
    machineKind resp = (400, "Validation failed") ∨
    machineKind resp = (500, "Failed to book seats") := by
  unfold bookHandler at h
  repeat' split at h
  all_goals rw [Prod.mk.injEq, Prod.mk.injEq] at h
  all_goals obtain ⟨rfl, rfl, rfl⟩ := h
  all_goals first
    | (left; rfl)
    | (right; rfl)
    | (exact absurd rfl hne)

/-- C7 amended witness: the conflict run of `conflict_vs_infra_same_kind`
falls into the generic 500 bucket. -/
theorem failure_kind_taxonomy_witness :
    machineKind (bookHandler noFail takenSt pAnn).2.1 = (400, "Validation failed") ∨
    machineKind (bookHandler noFail takenSt pAnn).2.1 = (500, "Failed to book seats") :=
  failure_kind_taxonomy noFail takenSt pAnn _ _ _ rfl (by decide)

/-- C9: an execution exists in which the transaction COMMITs — the booking
row and its seat claim are durably stored — and yet `POST /book` answers
HTTP 500: the booking-summary SELECT runs after COMMIT, its failure reaches
the catch branch with `transactionActive` already false, and the error
response is sent although the booking persisted.  An error response from
`/book` therefore does not imply that nothing was stored. -/
theorem commit_then_error_response :
    bookHandler (fun k => k == 4) emptySt
        ⟨some 7, some "Ann", some "ann@mail.com", some "12345678", some ["A1"]⟩ =
      ((⟨[], [], [⟨1, 7, "Ann", "ann@mail.com", "12345678"⟩],
         [⟨1, 1, 7, "A1"⟩], 2, 2⟩ : DbState),
       ⟨500, .dbError "Failed to book seats" infraMsg⟩,
       ⟨true, true, false⟩) :=
  rfl

/-- C10: a validated request whose seat list repeats a label always fails
and persists nothing, whatever the initial store (in particular when none
of its seats was previously claimed): the second insert of the repeated
seat violates `UNIQUE(session_id, seat)` against the request's own first
insert, and the rollback path returns the store unchanged. -/
theorem duplicate_seats_request_fails (st : DbState) (p : RawPayload) (r : BookingRequest)
    (hv : validateBooking p = .ok r) (hdup : ¬ r.seats.Nodup) :
    bookHandler noFail st p =
      (st, ⟨500, .dbError "Failed to book seats" uniqueMsg⟩, ⟨true, false, true⟩) := by
  unfold bookHandler
  rw [hv]
  simp only [noFail, Bool.false_eq_true, if_false]
  rw [insertSeats_error_of_dup r.seats _ 2 st.nextBookingId r.session_id hdup]
  rfl

/-- C10 witness: booking the duplicated list A1, A1 on the empty store
fails with the unique-violation error and stores nothing. -/
theorem duplicate_seats_request_fails_witness :
    bookHandler noFail emptySt
        ⟨some 1, some "Ann", some "ann@mail.com", some "12345678", some ["A1", "A1"]⟩ =
      (emptySt, ⟨500, .dbError "Failed to book seats" uniqueMsg⟩, ⟨true, false, true⟩) :=
  duplicate_seats_request_fails emptySt _
    ⟨1, "Ann", "ann@mail.com", "12345678", ["A1", "A1"]⟩ rfl (by decide)

/-- C1: two booking calls racing for an overlapping seat of the same session
are modelled, per SQLite's serialization of writer transactions, by the two
serial orders of the calls.  For each order the first call commits with
HTTP 200 while the second is rejected by the `UNIQUE(session_id, seat)`
constraint — the seat-conflict error, surfaced as the unique-violation
message — rolled back, and leaves the store untouched, so exactly one
commits; the hypotheses are symmetric in the two requests, so swapping the
arguments covers the other serialization.  Moreover every sequence of
`POST /book` executions (any oracles, any payloads) preserves the invariant
that `booking_seats` never holds two rows with the same
`(session_id, seat)` key. -/
theorem book_conflict_exclusion :
    (∀ (calls : List ((Nat → Bool) × RawPayload)) (st : DbState),
        (seatKeys st.booking_seats).Nodup →
        (seatKeys (runBooks calls st).booking_seats).Nodup) ∧
    (∀ (st : DbState) (p1 p2 : RawPayload) (r1 r2 : BookingRequest) (s0 : String),
        validateBooking p1 = .ok r1 → validateBooking p2 = .ok r2 →
        r2.session_id = r1.session_id → r1.seats.Nodup →
        (∀ s ∈ r1.seats, seatTaken st r1.session_id s = false) →
        s0 ∈ r1.seats → s0 ∈ r2.seats →
        (bookHandler noFail st p1).2.2 = ⟨true, true, false⟩ ∧
        (bookHandler noFail st p1).2.1.status = 200 ∧
        bookHandler noFail ((bookHandler noFail st p1).1) p2 =
          ((bookHandler noFail st p1).1,
           ⟨500, .dbError "Failed to book seats" uniqueMsg⟩,
           ⟨true, false, true⟩)) := by
  constructor
  · intro calls
    induction calls with
    | nil => intro st h; exact h
    | cons c rest ih =>
      intro st h
      exact ih ((bookHandler c.1 st c.2).1) (bookHandler_preserves_nodupKeys c.1 st c.2 h)
  · intro st p1 p2 r1 r2 s0 hv1 hv2 hsid hnd hdis hs1 hs2
    obtain ⟨summ, h1⟩ := bookHandler_success st p1 r1 hv1 hnd hdis
    have htk : seatTaken ((bookHandler noFail st p1).1) r2.session_id s0 = true := by
      rw [h1, seatTaken_iff_mem]
      show (r2.session_id, s0) ∈
        seatKeys (st.booking_seats ++ mkSeatRows st.nextSeatId st.nextBookingId r1.session_id r1.seats)
      rw [seatKeys_append, seatKeys_mkSeatRows]
      refine List.mem_append_right _ ?_
      rw [hsid]
      exact List.mem_map_of_mem _ hs1
    refine ⟨by rw [h1], by rw [h1], ?_⟩
    exact bookHandler_conflict _ p2 r2 hv2 ⟨s0, hs2, htk⟩

/-- C1 witness: Ann books A1, A2 on session 1 of `baseSt`; Bob then asks for
A2, A3 and is rejected with the unique-violation error while the store stays
as Ann left it, and the run of both calls keeps the seat keys duplicate
free. -/
theorem book_conflict_exclusion_witness :
    (seatKeys (runBooks [(noFail, pAnn), (noFail, pBob)] baseSt).booking_seats).Nodup ∧
    bookHandler noFail ((bookHandler noFail baseSt pAnn).1) pBob =
      ((bookHandler noFail baseSt pAnn).1,
       ⟨500, .dbError "Failed to book seats" uniqueMsg⟩,
       ⟨true, false, true⟩) :=
  ⟨book_conflict_exclusion.1 [(noFail, pAnn), (noFail, pBob)] baseSt (by decide),
   (book_conflict_exclusion.2 baseSt pAnn pBob
      ⟨1, "Ann", "ann@mail.com", "12345678", ["A1", "A2"]⟩
      ⟨1, "Bob", "bob@mail.com", "87654321", ["A2", "A3"]⟩
      "A2" rfl rfl rfl (by decide) (by decide) (by decide) (by decide)).2.2⟩

/-- C4: booking a duplicate-free seat list disjoint from the seats already
claimed on its session succeeds (HTTP 200), and the seat-availability query
`GET /sessions/:id/seats` afterwards returns exactly the previously claimed
seats followed by the newly booked ones — as a set, the old claimed set
union the request's seats. -/
theorem book_then_availability (st : DbState) (p : RawPayload) (r : BookingRequest)
    (sess : SessionRow) (mov : MovieRow)
    (hv : validateBooking p = .ok r) (hnd : r.seats.Nodup)
    (hdis : ∀ s ∈ r.seats, seatTaken st r.session_id s = false)
    (hs : findSession st r.session_id = some sess)
    (hm : findMovie st sess.movie_id = some mov) :
    (bookHandler noFail st p).2.1.status = 200 ∧
    getSessionSeats ((bookHandler noFail st p).1) r.session_id =
      .ok (claimedSeats st r.session_id ++ r.seats) sess mov ∧
    ∀ s, s ∈ claimedSeats ((bookHandler noFail st p).1) r.session_id ↔
      (s ∈ claimedSeats st r.session_id ∨ s ∈ r.seats) := by
  obtain ⟨summ, h1⟩ := bookHandler_success st p r hv hnd hdis
  have hstate : (bookHandler noFail st p).1 =
      { st with
        bookings := st.bookings ++
          [⟨st.nextBookingId, r.session_id, r.name, r.email, r.phone_number⟩],
        booking_seats := st.booking_seats ++
          mkSeatRows st.nextSeatId st.nextBookingId r.session_id r.seats,
        nextBookingId := st.nextBookingId + 1,
        nextSeatId := st.nextSeatId + r.seats.length } := by rw [h1]
  have hcl : claimedSeats ((bookHandler noFail st p).1) r.session_id =
      claimedSeats st r.session_id ++ r.seats := by
    rw [hstate]
    simp [claimedSeats, List.filter_append, mkSeatRows_filter_sid]
  have hs' : findSession ((bookHandler noFail st p).1) r.session_id = some sess := by
    rw [hstate]; exact hs
  have hm' : findMovie ((bookHandler noFail st p).1) sess.movie_id = some mov := by
    rw [hstate]; exact hm
  refine ⟨by rw [h1], ?_, ?_⟩
  · unfold getSessionSeats
    rw [hs']
    dsimp only
    rw [hm']
    dsimp only
    rw [hcl]
  · intro s
    rw [hcl]
    exact List.mem_append

/-- C4 witness: booking A1, A2 on the empty session 1 of `baseSt` succeeds
and the availability query then returns exactly those seats with the
session and movie details. -/
theorem book_then_availability_witness :
    (bookHandler noFail baseSt pAnn).2.1.status = 200 ∧
    getSessionSeats ((bookHandler noFail baseSt pAnn).1) 1 =
      .ok (claimedSeats baseSt 1 ++ ["A1", "A2"]) sampleSession sampleMovie := by
  have h := book_then_availability baseSt pAnn
    ⟨1, "Ann", "ann@mail.com", "12345678", ["A1", "A2"]⟩
    sampleSession sampleMovie rfl (by decide) (by decide) rfl rfl
  exact ⟨h.1, h.2.1⟩

/-- C6: every successful `POST /book` response is HTTP 200 with body
`success: true` and a `bookingSummary` whose `booking_id`, `name`, `email`,
`phone_number` and `session_id` are read back from a persisted row of the
`bookings` table and whose `seats` are that booking's persisted seat
claims. -/
theorem success_response_matches_store (fail : Nat → Bool) (st : DbState) (p : RawPayload)
    (st' : DbState) (resp : HttpResponse) (tr : BookTrace)
    (h : bookHandler fail st p = (st', resp, tr)) (h200 : resp.status = 200) :
    summaryMatchesStore st' resp := by
  unfold bookHandler at h
  repeat' split at h
  all_goals rw [Prod.mk.injEq, Prod.mk.injEq] at h
  all_goals obtain ⟨rfl, rfl, rfl⟩ := h
  all_goals try simp at h200
  rename_i st2 heqIns hc1 hc2 row heqFind
  have hrow : row.id = st.nextBookingId := by
    have hp := List.find?_some heqFind
    simpa [beq_iff_eq] using hp
  refine ⟨row, List.mem_of_find?_eq_some heqFind, ?_⟩
  rw [hrow]

/-- C6 witness: Ann's successful booking on `baseSt` reports exactly the
persisted booking row and seat claims. -/
theorem success_response_matches_store_witness :
    summaryMatchesStore ((bookHandler noFail baseSt pAnn).1)
      ((bookHandler noFail baseSt pAnn).2.1) :=
  success_response_matches_store noFail baseSt pAnn _ _ _ rfl rfl

/-- C8 counterexample: the claim accepts any payload with a non-empty
`phone_number`, but the schema requires `z.string().length(8)`: a payload
that is valid in every other respect and carries the non-empty phone
number "123" is rejected with the issue "Invalid phone number". -/
theorem phone_nonempty_payload_rejected :
    validateBooking ⟨some 1, some "Ann", some "ann@mail.com", some "123", some ["A1"]⟩ =
      .error [⟨"phone_number", "Invalid phone number"⟩] ∧
    ("123" : String) ≠ "" ∧ ("123" : String).length = 3 :=
  ⟨rfl, by decide, by decide⟩

/-- C8 amended: the validator accepts exactly the payloads with a numeric
`session_id` at least 1, a non-empty `name`, a valid email, a
`phone_number` of exactly 8 characters (this is the amendment: the claim
said merely non-empty), and a non-empty list of non-empty seat strings,
producing the well-typed request from the payload's own fields; on any
other payload it returns a non-empty structured issue list that names a
field if and only if that field failed its check; and a validation failure
makes the handler answer HTTP 400 with those issues, leaving the store
untouched with no transaction begun. -/
theorem validator_spec (p : RawPayload) :
    (∀ (sid : Int) (nm em ph : String) (sts : List String),
        p = ⟨some sid, some nm, some em, some ph, some sts⟩ →
        (sessionBadB p.session_id || nameBadB p.name || emailBadB p.email ||
          phoneBadB p.phone_number || seatsBadB p.seats) = false →
        validateBooking p = .ok ⟨sid, nm, em, ph, sts⟩) ∧
    (∀ iss, validateBooking p = .error iss →
        iss ≠ [] ∧
        ((∃ i ∈ iss, i.path = "session_id") ↔ sessionBadB p.session_id = true) ∧
        ((∃ i ∈ iss, i.path = "name") ↔ nameBadB p.name = true) ∧
        ((∃ i ∈ iss, i.path = "email") ↔ emailBadB p.email = true) ∧
        ((∃ i ∈ iss, i.path = "phone_number") ↔ phoneBadB p.phone_number = true) ∧
        ((∃ i ∈ iss, i.path = "seats") ↔ seatsBadB p.seats = true)) ∧
    (∀ (fail : Nat → Bool) (st : DbState) (iss : List Issue),
        validateBooking p = .error iss →
        bookHandler fail st p = (st, ⟨400, .validationFailed iss⟩, ⟨false, false, false⟩)) := by
  refine ⟨?_, ?_, ?_⟩
  · rintro sid nm em ph sts rfl hok
    exact validateBooking_ok_of_nil sid nm em ph sts ((bookingIssues_eq_nil _).2 hok)
  · intro iss herr
    obtain ⟨hiss, hne⟩ := validateBooking_error_elim p iss herr
    subst hiss
    refine ⟨hne, ?_, ?_, ?_, ?_, ?_⟩ <;> rw [bookingIssues_path_iff] <;> simp
  · intro fail st iss herr
    unfold bookHandler
    rw [herr]

/-- C8 amended witness: a fully valid payload (8-character phone) is
accepted and parsed into the corresponding typed request. -/
theorem validator_spec_witness :
    validateBooking ⟨some 1, some "Ann", some "ann@mail.com", some "12345678", some ["A1"]⟩ =
      .ok ⟨1, "Ann", "ann@mail.com", "12345678", ["A1"]⟩ :=
  (validator_spec ⟨some 1, some "Ann", some "ann@mail.com", some "12345678", some ["A1"]⟩).1
    1 "Ann" "ann@mail.com" "12345678" ["A1"] rfl (by decide)
